import Mathlib

/-!
Shallow embedding of the Conversant adapter
(`src/adapters/conversant/conversant.go`) and proofs about its
parameter-merge, transmission-handling and response-reconciliation logic.

Modelling conventions:
* Go `float64` prices and floors are modelled as `Rat`; the code only
  copies and compares them.
* Go pointers (`*int8`, `*FlexBool`, `*Banner`, ...) become `Option`.
* `encoding/json` is the Go standard library, not repository code; where
  the repository calls it on a struct (`conversantParams`,
  `openrtb.BidResponse`) the outcome of that call is an input of the
  model (`Option`).  The repository-defined decoder
  `FlexBool.UnmarshalJSON` is embedded explicitly over a small model of
  JSON scalars, reproducing the documented `encoding/json` behaviour of
  the two `json.Unmarshal` calls it makes (in particular: unmarshalling
  the JSON literal `null` into a Go `bool` or `int8` leaves the value
  unchanged and reports no error).
* The HTTP POST is an external collaborator; `call` takes a
  `transmit : BidRequest → HttpOutcome` argument standing for the
  serialize-and-send step, so "no request is sent" is rendered as
  "the result is the same for every `transmit`".
-/

namespace Conversant

/-- A JSON scalar as seen by `json.Unmarshal` when decoding into a small
Go value: the literal `null`, a boolean, an integral number, a number
with a fractional part, a string, an array or an object. -/
inductive JVal where
  | null
  | bool (b : Bool)
  | int (n : Int)
  | nonIntNum
  | str (s : String)
  | arr
  | obj
deriving DecidableEq, Repr

/-- `json.Unmarshal(data, &b)` for a Go `bool` variable whose current
value is `cur`: a JSON boolean is stored; the JSON literal `null` leaves
the variable unchanged and reports no error; everything else is a type
error. -/
def unmarshalGoBool (cur : Bool) : JVal → Option Bool
  | .bool b => some b
  | .null => some cur
  | _ => none

/-- `json.Unmarshal(data, &n)` for a Go `int8` variable whose current
value is `cur`: an integral JSON number in `[-128, 127]` is stored; an
out-of-range or fractional number is an error; the literal `null`
leaves the variable unchanged and reports no error; everything else is
a type error. -/
def unmarshalGoInt8 (cur : Int) : JVal → Option Int
  | .int n => if -128 ≤ n ∧ n ≤ 127 then some n else none
  | .null => some cur
  | _ => none

/-- `FlexBool.UnmarshalJSON`: first try a strict boolean decode into
`bval` (initially `false`); if that fails, try an `int8` decode into
`nval` (initially `0`), mapping non-zero to `true`; otherwise fail. -/
def flexBoolUnmarshalJSON (data : JVal) : Option Bool :=
  match unmarshalGoBool false data with
  | some b => some b
  | none =>
    match unmarshalGoInt8 0 data with
    | some n => if n ≠ 0 then some true else some false
    | none => none

/-- `FlexBool` is a Go `bool` with the flexible decoder above. -/
abbrev FlexBool := Bool

/-- `FlexBool.ToInt8`: project to `1`/`0`. -/
def FlexBool.ToInt8 (flag : FlexBool) : Int :=
  if flag = true then 1 else 0

/-! ## The OpenRTB request model (the fields the adapter touches) -/

/-- `openrtb.Banner` (the fields the adapter reads or writes). -/
structure Banner where
  w : Nat
  h : Nat
  pos : Option Int
deriving DecidableEq, Repr

/-- `openrtb.Video` (the fields the adapter reads or writes). -/
structure Video where
  w : Nat
  h : Nat
  pos : Option Int
  api : List Int
  protocols : List Int
  mimes : List String
  maxDuration : Int
deriving DecidableEq, Repr

/-- `openrtb.Imp` (the fields the adapter reads or writes).  Exactly one
of `banner`/`video` is expected to be `some`, but this is not
re-validated by the code. -/
structure Imp where
  id : String
  banner : Option Banner
  video : Option Video
  displayManager : String
  bidFloor : Rat
  tagID : String
  secure : Option Int
deriving DecidableEq, Repr

/-- `openrtb.Site` (the fields the adapter writes). -/
structure Site where
  id : String
  mobile : Int
deriving DecidableEq, Repr

/-- The generic OpenRTB request produced by `MakeOpenRTBGeneric`
(an external collaborator), restricted to the fields the adapter
touches.  `device` models the `*openrtb.Device` pointer; the adapter
only ever checks it for `nil` and fills in an empty object. -/
structure BidRequest where
  site : Site
  imp : List Imp
  device : Option Unit

/-- `conversantParams`: the decoded per-placement parameter block.  A
field absent from the JSON blob is left at its Go zero value: `""`,
`none`, `0` or `[]`. -/
structure ConversantParams where
  siteID : String
  secure : Option FlexBool
  tagID : String
  position : Option Int
  bidFloor : Rat
  mobile : Option FlexBool
  mimes : List String
  api : List Int
  protocols : List Int
  maxDuration : Option Int
deriving DecidableEq, Repr

/-- One `pbs.PBSAdUnit` as the adapter sees it: a placement code and
the outcome of `json.Unmarshal(unit.Params, &params)`; `none` models a
parameter blob that fails to decode. -/
structure AdUnit where
  code : String
  params : Option ConversantParams
deriving DecidableEq, Repr

/-- The `pbs.PBSBidder` fields the adapter uses.  `lookupBidID` is the
orchestrator-provided `bidder.LookupBidID` (external collaborator). -/
structure Bidder where
  bidderCode : String
  adUnits : List AdUnit
  lookupBidID : String → String

/-! ## The OpenRTB response model and the host bid record -/

/-- `openrtb.Bid` (the fields the adapter reads). -/
structure Bid where
  impID : String
  price : Rat
  adm : String
  nurl : String
  crID : String
  w : Nat
  h : Nat
deriving DecidableEq, Repr

/-- `openrtb.SeatBid` (the fields the adapter reads). -/
structure SeatBid where
  bid : List Bid
deriving DecidableEq, Repr

/-- `openrtb.BidResponse` (the fields the adapter reads). -/
structure BidResponse where
  seatBid : List SeatBid
deriving DecidableEq, Repr

/-- `pbs.PBSBid`: the host's bid record, restricted to the fields the
adapter populates. -/
structure PBSBid where
  bidID : String
  adUnitCode : String
  price : Rat
  creativeID : String
  bidderCode : String
  creativeMediaType : String
  nurl : String
  adm : String
  width : Nat
  height : Nat
deriving DecidableEq, Repr

/-- The distinct terminal errors `Call` can return. -/
inductive CallError where
  /-- `json.Unmarshal(unit.Params, &params)` failed for the ad unit
  with this code. -/
  | decodeParams (code : String)
  /-- `"Missing site id"`. -/
  | missingSiteID
  /-- `ctxhttp.Do` failed. -/
  | transport (e : String)
  /-- `"HTTP status: %d, body: %s"`. -/
  | httpStatus (status : Nat) (body : String)
  /-- `json.Unmarshal(body, &bidResp)` failed. -/
  | responseDecode (body : String)
  /-- `"Unknown impression id '%s'"`. -/
  | unknownImpression (impID : String)
  /-- `"Unknown ad unit code '%s'"`. -/
  | unknownAdUnitCode (code : String)
deriving DecidableEq, Repr

/-- The outcome of the HTTP POST: a transport error from `ctxhttp.Do`,
or a response with a status, a body, and the outcome of
`json.Unmarshal(body, &bidResp)` on that body (`none` models a body
that fails to decode; it is only consulted on status 200). -/
inductive HttpOutcome where
  | transportError (e : String)
  | response (status : Nat) (body : String) (parsed : Option BidResponse)

/-! ## The parameter merge (the ad-unit loop of `Call`)

The Go code builds `impMap`, a map from impression ID to a pointer into
`cnvrReq.Imp`, once before the loop; inserting forward means that for a
duplicated ID the pointer to the LAST occurrence wins.  Mutation through
the pointer is modelled by updating the last matching element of the
impression list; the merge never changes an impression's `id`, so
re-resolving the ID against the current list per ad unit is equivalent
to the pointer map. -/

/-- `impMap[id]`: the last impression of the list with the given ID. -/
def impMapFind : List Imp → String → Option Imp
  | [], _ => none
  | i :: rest, id =>
    match impMapFind rest id with
    | some j => some j
    | none => if i.id = id then some i else none

/-- Site-level writes of the loop body: a non-empty `site_id` overwrites
the shared site ID; a present `mobile` flag overwrites the mobile
indicator via the 1/0 projection. -/
def mergeSite (site : Site) (params : ConversantParams) : Site :=
  let site := if params.siteID ≠ "" then { site with id := params.siteID } else site
  match params.mobile with
  | some m => { site with mobile := m.ToInt8 }
  | none => site

/-- Unconditional impression-level writes of the loop body:
`DisplayManager`, `BidFloor` and `TagID` are always assigned from the
parameter block. -/
def mergeImpCore (imp : Imp) (params : ConversantParams) : Imp :=
  { imp with
    displayManager := "prebid-s2s"
    bidFloor := params.bidFloor
    tagID := params.tagID }

/-- The media-type branch of the loop body: the (possibly absent)
position is written into the banner if there is one, else into the
video; video-only list fields and max duration are replaced only when
supplied. -/
def mergeImpMedia (imp : Imp) (params : ConversantParams) : Imp :=
  match imp.banner with
  | some b => { imp with banner := some { b with pos := params.position } }
  | none =>
    match imp.video with
    | some v =>
      let v := { v with pos := params.position }
      let v := if params.api ≠ [] then { v with api := params.api } else v
      let v := if params.protocols ≠ [] then { v with protocols := params.protocols } else v
      let v := if params.mimes ≠ [] then { v with mimes := params.mimes } else v
      let v :=
        match params.maxDuration with
        | some d => { v with maxDuration := d }
        | none => v
      { imp with video := some v }
    | none => imp

/-- The secure-flag write of the loop body: only when the flag is still
unset or zero AND the parameters supply one. -/
def mergeImpSecure (imp : Imp) (params : ConversantParams) : Imp :=
  if (imp.secure = none ∨ imp.secure = some 0) ∧ params.secure ≠ none then
    { imp with secure := params.secure.map FlexBool.ToInt8 }
  else imp

/-- The whole impression-level part of the loop body, in source order. -/
def mergeImp (imp : Imp) (params : ConversantParams) : Imp :=
  mergeImpSecure (mergeImpMedia (mergeImpCore imp params) params) params

/-- Mutation through `impMap[code]`: rewrite the last impression whose
ID equals `code` with `mergeImp`; a list with no match is returned
unchanged. -/
def mergeImpsAt : List Imp → String → ConversantParams → List Imp
  | [], _, _ => []
  | i :: rest, code, params =>
    match impMapFind rest code with
    | some _ => i :: mergeImpsAt rest code params
    | none =>
      if i.id = code then mergeImp i params :: rest
      else i :: mergeImpsAt rest code params

/-- One iteration of the ad-unit loop: an ad unit whose code matches no
impression is skipped (before its parameter blob is decoded); a blob
that fails to decode aborts the call; otherwise the site and the
matched impression are updated. -/
def mergeUnit (st : Site × List Imp) (unit : AdUnit) :
    Except CallError (Site × List Imp) :=
  match impMapFind st.2 unit.code with
  | none => .ok st
  | some _ =>
    match unit.params with
    | none => .error (.decodeParams unit.code)
    | some params => .ok (mergeSite st.1 params, mergeImpsAt st.2 unit.code params)

/-- The ad-unit loop. -/
def mergeUnits (st : Site × List Imp) : List AdUnit → Except CallError (Site × List Imp)
  | [] => .ok st
  | u :: rest =>
    match mergeUnit st u with
    | .error e => .error e
    | .ok st2 => mergeUnits st2 rest

/-- The pre-transmission part of `Call`: run the ad-unit loop, check
the required site ID, and default the device object. -/
def makeRequest (req : BidRequest) (bidder : Bidder) : Except CallError BidRequest :=
  match mergeUnits (req.site, req.imp) bidder.adUnits with
  | .error e => .error e
  | .ok (site, imps) =>
    if site.id = "" then .error .missingSiteID
    else .ok { site := site, imp := imps, device := some (req.device.getD ()) }

/-! ## Response reconciliation (the seat-bid loop of `Call`) -/

/-- Build one `pbs.PBSBid` from a matched impression and a response
bid: common fields from the bid, then the media branch — a video
impression tags the record "video", routes the bid's markup through
`NURL` (so it is read as a VAST redirect URL) and takes dimensions from
the impression's video object; otherwise the record is a banner with
markup and dimensions from the bid itself. -/
def mkPBSBid (bidderCode bidID : String) (imp : Imp) (bid : Bid) : PBSBid :=
  match imp.video with
  | some v =>
    { bidID := bidID, adUnitCode := bid.impID, price := bid.price,
      creativeID := bid.crID, bidderCode := bidderCode,
      creativeMediaType := "video", nurl := bid.adm, adm := "",
      width := v.w, height := v.h }
  | none =>
    { bidID := bidID, adUnitCode := bid.impID, price := bid.price,
      creativeID := bid.crID, bidderCode := bidderCode,
      creativeMediaType := "banner", nurl := bid.nurl, adm := bid.adm,
      width := bid.w, height := bid.h }

/-- The inner bid loop over one seat: skip non-positive prices, fail on
an impression ID absent from the impression map, fail on an empty
orchestrator bid ID, otherwise append a record. -/
def reconcileBids (imps : List Imp) (bidder : Bidder) (acc : List PBSBid) :
    List Bid → Except CallError (List PBSBid)
  | [] => .ok acc
  | bid :: rest =>
    if bid.price ≤ 0 then reconcileBids imps bidder acc rest
    else
      match impMapFind imps bid.impID with
      | none => .error (.unknownImpression bid.impID)
      | some imp =>
        if bidder.lookupBidID bid.impID = "" then .error (.unknownAdUnitCode bid.impID)
        else
          reconcileBids imps bidder
            (acc ++ [mkPBSBid bidder.bidderCode (bidder.lookupBidID bid.impID) imp bid]) rest

/-- The outer seat loop. -/
def reconcileSeats (imps : List Imp) (bidder : Bidder) (acc : List PBSBid) :
    List SeatBid → Except CallError (List PBSBid)
  | [] => .ok acc
  | s :: rest =>
    match reconcileBids imps bidder acc s.bid with
    | .error e => .error e
    | .ok acc2 => reconcileSeats imps bidder acc2 rest

/-- Turn a decoded response into bid records.  (The Go code returns a
`nil` slice rather than the accumulated empty slice when no bid
qualifies; both are the empty collection here.) -/
def reconcile (imps : List Imp) (bidder : Bidder) (resp : BidResponse) :
    Except CallError (List PBSBid) :=
  reconcileSeats imps bidder [] resp.seatBid

/-- The post-transmission part of `Call`: a transport error propagates;
status 204 is zero bids and no error; any other non-200 status is a
hard error carrying status and body; a 200 body that fails to decode is
an error; otherwise reconcile. -/
def handleResponse (imps : List Imp) (bidder : Bidder) :
    HttpOutcome → Except CallError (List PBSBid)
  | .transportError e => .error (.transport e)
  | .response status body parsed =>
    if status = 204 then .ok []
    else if status ≠ 200 then .error (.httpStatus status body)
    else
      match parsed with
      | none => .error (.responseDecode body)
      | some bidResp => reconcile imps bidder bidResp

/-- `ConversantAdapter.Call` after `MakeOpenRTBGeneric`: merge, check,
transmit (abstracted as `transmit`), handle the outcome.  The
impression map used for reconciliation holds pointers into the merged
request, hence `merged.imp`. -/
def call (req : BidRequest) (bidder : Bidder)
    (transmit : BidRequest → HttpOutcome) : Except CallError (List PBSBid) :=
  match makeRequest req bidder with
  | .error e => .error e
  | .ok merged => handleResponse merged.imp bidder (transmit merged)

/-- All bids of a response, across every seat, in processing order. -/
def allBids (resp : BidResponse) : List Bid :=
  resp.seatBid.flatMap SeatBid.bid

/-! ## Helper lemmas -/

theorem impMapFind_eq_none_iff (imps : List Imp) (code : String) :
    impMapFind imps code = none ↔ code ∉ imps.map Imp.id := by
  induction imps with
  | nil => simp [impMapFind]
  | cons i rest ih =>
    cases h : impMapFind rest code with
    | some j =>
      have hmem : code ∈ rest.map Imp.id := by
        by_contra hc
        rw [← ih] at hc
        rw [h] at hc
        exact Option.noConfusion hc
      simp [impMapFind, h, hmem]
    | none =>
      have hnot : code ∉ rest.map Imp.id := ih.mp h
      by_cases hid : i.id = code
      · simp [impMapFind, h, hid]
      · simp [impMapFind, h, hid, hnot, Ne.symm hid]

theorem mergeImpCore_secure (imp : Imp) (params : ConversantParams) :
    (mergeImpCore imp params).secure = imp.secure := rfl

theorem mergeImpCore_id (imp : Imp) (params : ConversantParams) :
    (mergeImpCore imp params).id = imp.id := rfl

theorem mergeImpMedia_secure (imp : Imp) (params : ConversantParams) :
    (mergeImpMedia imp params).secure = imp.secure := by
  unfold mergeImpMedia
  cases hb : imp.banner with
  | some b => rfl
  | none => cases hv : imp.video with
    | some v => rfl
    | none => rfl

theorem mergeImpMedia_id (imp : Imp) (params : ConversantParams) :
    (mergeImpMedia imp params).id = imp.id := by
  unfold mergeImpMedia
  cases hb : imp.banner with
  | some b => rfl
  | none => cases hv : imp.video with
    | some v => rfl
    | none => rfl

theorem mergeImpMedia_bidFloor (imp : Imp) (params : ConversantParams) :
    (mergeImpMedia imp params).bidFloor = imp.bidFloor := by
  unfold mergeImpMedia
  cases hb : imp.banner with
  | some b => rfl
  | none => cases hv : imp.video with
    | some v => rfl
    | none => rfl

theorem mergeImpMedia_tagID (imp : Imp) (params : ConversantParams) :
    (mergeImpMedia imp params).tagID = imp.tagID := by
  unfold mergeImpMedia
  cases hb : imp.banner with
  | some b => rfl
  | none => cases hv : imp.video with
    | some v => rfl
    | none => rfl

theorem mergeImpMedia_displayManager (imp : Imp) (params : ConversantParams) :
    (mergeImpMedia imp params).displayManager = imp.displayManager := by
  unfold mergeImpMedia
  cases hb : imp.banner with
  | some b => rfl
  | none => cases hv : imp.video with
    | some v => rfl
    | none => rfl

theorem mergeImpSecure_id (imp : Imp) (params : ConversantParams) :
    (mergeImpSecure imp params).id = imp.id := by
  unfold mergeImpSecure
  split_ifs <;> rfl

theorem mergeImpSecure_bidFloor (imp : Imp) (params : ConversantParams) :
    (mergeImpSecure imp params).bidFloor = imp.bidFloor := by
  unfold mergeImpSecure
  split_ifs <;> rfl

theorem mergeImpSecure_tagID (imp : Imp) (params : ConversantParams) :
    (mergeImpSecure imp params).tagID = imp.tagID := by
  unfold mergeImpSecure
  split_ifs <;> rfl

theorem mergeImpSecure_displayManager (imp : Imp) (params : ConversantParams) :
    (mergeImpSecure imp params).displayManager = imp.displayManager := by
  unfold mergeImpSecure
  split_ifs <;> rfl

theorem mergeImpSecure_banner (imp : Imp) (params : ConversantParams) :
    (mergeImpSecure imp params).banner = imp.banner := by
  unfold mergeImpSecure
  split_ifs <;> rfl

theorem mergeImpSecure_video (imp : Imp) (params : ConversantParams) :
    (mergeImpSecure imp params).video = imp.video := by
  unfold mergeImpSecure
  split_ifs <;> rfl

theorem mergeImp_id (imp : Imp) (params : ConversantParams) :
    (mergeImp imp params).id = imp.id := by
  unfold mergeImp
  rw [mergeImpSecure_id, mergeImpMedia_id, mergeImpCore_id]

theorem mergeImpSecure_of_truthy (imp : Imp) (params : ConversantParams) (s : Int)
    (hs : imp.secure = some s) (hns : s ≠ 0) : mergeImpSecure imp params = imp := by
  unfold mergeImpSecure
  rw [if_neg]
  rintro ⟨h1 | h1, -⟩ <;> rw [hs] at h1
  · exact Option.noConfusion h1
  · exact hns (Option.some.inj h1)

theorem mergeImpSecure_of_unset (imp : Imp) (params : ConversantParams)
    (h : imp.secure = none ∨ imp.secure = some 0) (b : FlexBool) (hb : params.secure = some b) :
    (mergeImpSecure imp params).secure = some b.ToInt8 := by
  unfold mergeImpSecure
  rw [if_pos ⟨h, by rw [hb]; exact fun hc => Option.noConfusion hc⟩]
  simp [hb]

theorem mergeImpSecure_of_no_param (imp : Imp) (params : ConversantParams)
    (h : params.secure = none) : mergeImpSecure imp params = imp := by
  unfold mergeImpSecure
  rw [if_neg]
  rintro ⟨-, hc⟩
  exact hc h

/-- A fixture bidder with no ad units. -/
def bidder0 : Bidder :=
  { bidderCode := "conversant", adUnits := [], lookupBidID := fun _ => "" }

/-! ## C1: the flexible boolean decoder -/

/-- C1: the flexible boolean decoder accepts `true`, `false`, `1`, `0`
(and any accepted non-zero integer maps to `true`) and rejects the
string `"yes"`; but, contrary to the claim, decoding the JSON literal
`null` does NOT fail: `json.Unmarshal` of `null` into the `bool`
attempt leaves it unchanged and reports success, so the decoder
silently yields `false`. -/
theorem c1_flexbool_decode_eval :
    flexBoolUnmarshalJSON (JVal.bool true) = some true ∧
    flexBoolUnmarshalJSON (JVal.bool false) = some false ∧
    flexBoolUnmarshalJSON (JVal.int 1) = some true ∧
    flexBoolUnmarshalJSON (JVal.int 0) = some false ∧
    flexBoolUnmarshalJSON (JVal.int 5) = some true ∧
    flexBoolUnmarshalJSON (JVal.str "yes") = none ∧
    flexBoolUnmarshalJSON JVal.null = some false := by
  decide

/-! ## C5: the secure flag is never downgraded -/

/-- C5: if the impression's secure flag is already set to a non-zero
value before the merge, the merge leaves it unchanged whatever the
placement parameters say (including `secure = 0`); otherwise a supplied
secure flag is written as a 1/0 integer. -/
theorem c5_secure_not_overridden (imp : Imp) (params : ConversantParams) :
    (∀ s : Int, imp.secure = some s → s ≠ 0 → (mergeImp imp params).secure = imp.secure) ∧
    ((imp.secure = none ∨ imp.secure = some 0) → ∀ b : FlexBool, params.secure = some b →
      (mergeImp imp params).secure = some b.ToInt8) := by
  have hsec : (mergeImpMedia (mergeImpCore imp params) params).secure = imp.secure := by
    rw [mergeImpMedia_secure, mergeImpCore_secure]
  constructor
  · intro s hs hns
    unfold mergeImp
    rw [mergeImpSecure_of_truthy _ params s (hsec.trans hs) hns]
    exact hsec
  · intro h b hb
    unfold mergeImp
    refine mergeImpSecure_of_unset _ params ?_ b hb
    rw [hsec]
    exact h

/-- A banner impression whose secure flag is already 1. -/
def impSecure1 : Imp :=
  { id := "b1", banner := some { w := 300, h := 250, pos := none }, video := none,
    displayManager := "", bidFloor := 0, tagID := "", secure := some 1 }

/-- The same impression with the secure flag unset. -/
def impSecureNone : Imp := { impSecure1 with secure := none }

/-- Placement parameters supplying `secure = 0`. -/
def paramsSecure0 : ConversantParams :=
  { siteID := "s", secure := some false, tagID := "t", position := none, bidFloor := 0,
    mobile := none, mimes := [], api := [], protocols := [], maxDuration := none }

/-- Placement parameters supplying `secure = 1`. -/
def paramsSecure1 : ConversantParams := { paramsSecure0 with secure := some true }

/-- C5 witness: a secure-1 banner impression is unaffected by
`secure = 0`; an unset flag is written as 1 for `secure = true`. -/
theorem c5_secure_not_overridden_witness :
    (mergeImp impSecure1 paramsSecure0).secure = impSecure1.secure ∧
    (mergeImp impSecureNone paramsSecure1).secure = some 1 :=
  ⟨(c5_secure_not_overridden impSecure1 paramsSecure0).1 1 rfl (by decide),
   ((c5_secure_not_overridden impSecureNone paramsSecure1).2 (Or.inl rfl) true rfl).trans
     (by decide)⟩

/-! ## C6: HTTP status handling -/

/-- C6: an HTTP 204 outcome returns successfully with zero bids and no
error; any other non-200 status is a hard error carrying the status
code and the response body verbatim, with no bids produced. -/
theorem c6_http_status_handling (imps : List Imp) (bidder : Bidder) (status : Nat)
    (body : String) (parsed : Option BidResponse) :
    (status = 204 → handleResponse imps bidder (.response status body parsed) = .ok []) ∧
    (status ≠ 200 → status ≠ 204 →
      handleResponse imps bidder (.response status body parsed) =
        .error (.httpStatus status body)) := by
  constructor
  · intro h
    subst h
    rfl
  · intro h200 h204
    show (if status = 204 then Except.ok [] else if status ≠ 200
        then Except.error (CallError.httpStatus status body) else _) = _
    rw [if_neg h204, if_pos h200]

/-- C6 witness: status 204 gives `ok []`; status 500 with body `"oops"`
gives the status error carrying both. -/
theorem c6_http_status_handling_witness :
    handleResponse [] bidder0 (.response 204 "" none) = .ok [] ∧
    handleResponse [] bidder0 (.response 500 "oops" none) =
      .error (.httpStatus 500 "oops") :=
  ⟨(c6_http_status_handling [] bidder0 204 "" none).1 rfl,
   (c6_http_status_handling [] bidder0 500 "oops" none).2 (by decide) (by decide)⟩

/-! ## C9: unmatched placements are skipped -/

/-- C9: an ad unit whose code matches no impression ID is skipped
without error, leaving the site and the impression list exactly as
they were. -/
theorem c9_unmatched_placement_skipped (st : Site × List Imp) (u : AdUnit)
    (h : u.code ∉ st.2.map Imp.id) : mergeUnit st u = .ok st := by
  unfold mergeUnit
  rw [(impMapFind_eq_none_iff st.2 u.code).mpr h]

/-- A banner impression fixture (floor 3/2, tag and position set). -/
def impB : Imp :=
  { id := "b1", banner := some { w := 300, h := 250, pos := some 1 }, video := none,
    displayManager := "dm", bidFloor := ⟨3, 2, by norm_num, by norm_num⟩,
    tagID := "mytag", secure := none }

/-- A site fixture. -/
def site0 : Site := { id := "s1", mobile := 0 }

/-- C9 witness: a placement with code `"zz"` against a request whose
only impression is `"b1"` leaves site and impressions untouched. -/
theorem c9_unmatched_placement_skipped_witness :
    mergeUnit (site0, [impB]) { code := "zz", params := none } = .ok (site0, [impB]) :=
  c9_unmatched_placement_skipped (site0, [impB]) { code := "zz", params := none } (by decide)

/-! ## C10: non-positive prices are filtered before the impression lookup -/

/-- C10: a response bid whose price is non-positive is skipped
silently even when its impression ID is absent from the impression
map; it never reaches the unknown-impression check. -/
theorem c10_nonpositive_price_skipped (imps : List Imp) (bidder : Bidder)
    (acc : List PBSBid) (bid : Bid) (rest : List Bid)
    (hp : bid.price ≤ 0) (_hunk : impMapFind imps bid.impID = none) :
    reconcileBids imps bidder acc (bid :: rest) = reconcileBids imps bidder acc rest := by
  simp only [reconcileBids]
  rw [if_pos hp]

/-- A zero-price bid pointing at an impression ID no request carries. -/
def ghostBid : Bid :=
  { impID := "ghost", price := 0, adm := "", nurl := "", crID := "", w := 0, h := 0 }

/-- C10 witness: with an empty impression map, processing the
zero-price `ghost` bid is the same as processing nothing — the call
returns `ok []` instead of an unknown-impression error. -/
theorem c10_nonpositive_price_skipped_witness :
    reconcileBids [] bidder0 [] [ghostBid] = reconcileBids [] bidder0 [] [] :=
  c10_nonpositive_price_skipped [] bidder0 [] ghostBid [] (by decide) rfl

/-! ## C4: a still-empty site ID aborts before transmission -/

/-- C4: if the ad-unit merge loop completes and the site ID is still
empty, the call fails with the missing-site-ID error whatever the
transport would have answered — the outcome is independent of
`transmit`, i.e. no request is sent and zero bids are produced. -/
theorem c4_missing_site_id (req : BidRequest) (bidder : Bidder) (site : Site)
    (imps : List Imp)
    (hm : mergeUnits (req.site, req.imp) bidder.adUnits = .ok (site, imps))
    (hempty : site.id = "") :
    ∀ transmit : BidRequest → HttpOutcome,
      call req bidder transmit = .error CallError.missingSiteID := by
  intro transmit
  unfold call makeRequest
  rw [hm]
  simp [hempty]

/-- A request whose site ID is empty. -/
def reqEmptySite : BidRequest := { site := { id := "", mobile := 0 }, imp := [], device := none }

/-- C4 witness: with no ad units and an empty base site ID the call
fails with the missing-site-ID error. -/
theorem c4_missing_site_id_witness :
    call reqEmptySite bidder0 (fun _ => .response 204 "" none) =
      .error CallError.missingSiteID :=
  c4_missing_site_id reqEmptySite bidder0 { id := "", mobile := 0 } [] rfl rfl
    (fun _ => .response 204 "" none)

/-! ## C3: the two-bid video scenario -/

/-- The price 2.5 as an exact rational. -/
def twoPointFive : Rat := ⟨5, 2, by norm_num, by norm_num⟩

theorem twoPointFive_eq : twoPointFive = 5 / 2 := by
  rw [← Rat.num_div_den twoPointFive]
  norm_num [twoPointFive]

/-- A video impression with ID `"v1"` and video dimensions 640×480. -/
def impV : Imp :=
  { id := "v1", banner := none,
    video := some { w := 640, h := 480, pos := none, api := [], protocols := [],
                    mimes := [], maxDuration := 0 },
    displayManager := "", bidFloor := 0, tagID := "", secure := none }

/-- A bidder that resolves the placement code `"v1"` to bid ID `"bid1"`. -/
def bidderV : Bidder :=
  { bidderCode := "conversant", adUnits := [],
    lookupBidID := fun c => if c = "v1" then "bid1" else "" }

/-- One seat with two bids: a zero-priced one and a 2.5-priced one
whose markup is a VAST URL and whose own dimensions are 300×250. -/
def respV : BidResponse :=
  { seatBid := [ { bid := [
      { impID := "v1", price := 0, adm := "adm0", nurl := "n0", crID := "c0", w := 1, h := 2 },
      { impID := "v1", price := twoPointFive, adm := "http://vast.example/ad", nurl := "n1",
        crID := "cr1", w := 300, h := 250 } ] } ] }

/-- C3: reconciling the two-bid response yields exactly one record,
tagged "video", with the bid's markup in the NURL (redirect URL) field
and the impression's video dimensions 640×480, not the bid's 300×250. -/
theorem c3_video_two_bids :
    reconcile [impV] bidderV respV =
      .ok [ { bidID := "bid1", adUnitCode := "v1", price := twoPointFive,
              creativeID := "cr1", bidderCode := "conversant",
              creativeMediaType := "video", nurl := "http://vast.example/ad",
              adm := "", width := 640, height := 480 } ] := rfl

/-! ## C7: which absent parameter fields really leave fields unchanged -/

/-- A parameter block with every field absent (all Go zero values). -/
def paramsAbsent : ConversantParams :=
  { siteID := "", secure := none, tagID := "", position := none, bidFloor := 0,
    mobile := none, mimes := [], api := [], protocols := [], maxDuration := none }

/-- C7 counterexample: merging an all-absent parameter block into the
banner impression `impB` (floor 3/2, tag `"mytag"`, position 1) does
NOT leave the impression's bid floor, tag ID and position unchanged —
all three are overwritten with the block's zero values. -/
theorem c7_counterexample :
    (mergeImp impB paramsAbsent).bidFloor ≠ impB.bidFloor ∧
    (mergeImp impB paramsAbsent).tagID ≠ impB.tagID ∧
    (mergeImp impB paramsAbsent).banner ≠ impB.banner := by
  decide

/-- C7 amended: an absent site ID, mobile flag, secure flag, video
API/protocol/MIME list and max duration indeed leave the corresponding
fields unchanged; but the display manager, bid floor, tag ID and
position are always written from the parameter block, so their absence
overwrites the impression's existing values with the block's zero
values (`0`, `""`, unset position). -/
theorem c7_amended_absent_fields (site : Site) (imp : Imp) (params : ConversantParams)
    (h1 : params.siteID = "") (h2 : params.mobile = none) (h3 : params.secure = none)
    (h4 : params.api = []) (h5 : params.protocols = []) (h6 : params.mimes = [])
    (h7 : params.maxDuration = none) :
    mergeSite site params = site ∧
    (mergeImp imp params).secure = imp.secure ∧
    (mergeImp imp params).bidFloor = params.bidFloor ∧
    (mergeImp imp params).tagID = params.tagID ∧
    (mergeImp imp params).displayManager = "prebid-s2s" ∧
    (∀ b, imp.banner = some b →
      (mergeImp imp params).banner = some { b with pos := params.position }) ∧
    (∀ v, imp.banner = none → imp.video = some v →
      (mergeImp imp params).video = some { v with pos := params.position }) := by
  unfold mergeImp
  rw [mergeImpSecure_of_no_param _ params h3]
  refine ⟨?_, ?_, ?_, ?_, ?_, ?_, ?_⟩
  · simp [mergeSite, h1, h2]
  · rw [mergeImpMedia_secure, mergeImpCore_secure]
  · rw [mergeImpMedia_bidFloor]
    rfl
  · rw [mergeImpMedia_tagID]
    rfl
  · rw [mergeImpMedia_displayManager]
    rfl
  · intro b hb
    unfold mergeImpMedia
    have : (mergeImpCore imp params).banner = some b := hb
    rw [this]
  · intro v hb hv
    unfold mergeImpMedia
    have hcb : (mergeImpCore imp params).banner = none := hb
    have hcv : (mergeImpCore imp params).video = some v := hv
    rw [hcb, hcv]
    simp [h4, h5, h6, h7]

/-- A site fixture with a non-trivial mobile flag. -/
def siteW : Site := { id := "sw", mobile := 1 }

/-- A fully-populated video object. -/
def videoW : Video :=
  { w := 640, h := 480, pos := some 3, api := [1], protocols := [2],
    mimes := ["video/mp4"], maxDuration := 30 }

/-- A video impression fixture. -/
def impVW : Imp :=
  { id := "v9", banner := none, video := some videoW, displayManager := "x",
    bidFloor := 1, tagID := "tv", secure := none }

/-- C7 witness: the amended statement evaluated on concrete banner and
video impressions against the all-absent parameter block. -/
theorem c7_amended_absent_fields_witness :
    mergeSite siteW paramsAbsent = siteW ∧
    (mergeImp impB paramsAbsent).secure = impB.secure ∧
    (mergeImp impB paramsAbsent).bidFloor = paramsAbsent.bidFloor ∧
    (mergeImp impB paramsAbsent).tagID = paramsAbsent.tagID ∧
    (mergeImp impB paramsAbsent).displayManager = "prebid-s2s" ∧
    (mergeImp impB paramsAbsent).banner =
      some { w := 300, h := 250, pos := paramsAbsent.position } ∧
    (mergeImp impVW paramsAbsent).video = some { videoW with pos := paramsAbsent.position } :=
  ⟨(c7_amended_absent_fields siteW impB paramsAbsent rfl rfl rfl rfl rfl rfl rfl).1,
   (c7_amended_absent_fields siteW impB paramsAbsent rfl rfl rfl rfl rfl rfl rfl).2.1,
   (c7_amended_absent_fields siteW impB paramsAbsent rfl rfl rfl rfl rfl rfl rfl).2.2.1,
   (c7_amended_absent_fields siteW impB paramsAbsent rfl rfl rfl rfl rfl rfl rfl).2.2.2.1,
   (c7_amended_absent_fields siteW impB paramsAbsent rfl rfl rfl rfl rfl rfl rfl).2.2.2.2.1,
   (c7_amended_absent_fields siteW impB paramsAbsent rfl rfl rfl rfl rfl rfl
       rfl).2.2.2.2.2.1 { w := 300, h := 250, pos := some 1 } rfl,
   (c7_amended_absent_fields siteW impVW paramsAbsent rfl rfl rfl rfl rfl rfl
       rfl).2.2.2.2.2.2 videoW rfl rfl⟩

/-! ## C8: when a bad parameter blob aborts the call -/

theorem mergeImpsAt_map_id (imps : List Imp) (code : String) (params : ConversantParams) :
    (mergeImpsAt imps code params).map Imp.id = imps.map Imp.id := by
  induction imps with
  | nil => rfl
  | cons i rest ih =>
    cases h : impMapFind rest code with
    | some j => simp [mergeImpsAt, h, ih]
    | none =>
      by_cases hid : i.id = code
      · simp [mergeImpsAt, h, hid, mergeImp_id]
      · simp [mergeImpsAt, h, hid, ih]

theorem mergeUnit_ok_map_id (st st' : Site × List Imp) (u : AdUnit)
    (h : mergeUnit st u = .ok st') : st'.2.map Imp.id = st.2.map Imp.id := by
  unfold mergeUnit at h
  cases hf : impMapFind st.2 u.code with
  | none =>
    rw [hf] at h
    cases h
    rfl
  | some j =>
    rw [hf] at h
    cases hp : u.params with
    | none =>
      rw [hp] at h
      exact Except.noConfusion h
    | some params =>
      rw [hp] at h
      cases h
      exact mergeImpsAt_map_id st.2 u.code params

theorem mergeUnits_decode_error (u : AdUnit) (units : List AdUnit) :
    ∀ st : Site × List Imp, u ∈ units → u.params = none → u.code ∈ st.2.map Imp.id →
      (∀ w ∈ units, w.params = none → w = u) →
      mergeUnits st units = .error (.decodeParams u.code) := by
  induction units with
  | nil =>
    intro st hmem
    exact absurd hmem (List.not_mem_nil u)
  | cons u' rest ih =>
    intro st hmem hbad hcode honly
    cases hu' : u'.params with
    | none =>
      have heq : u' = u := honly u' (List.mem_cons_self u' rest) hu'
      subst heq
      obtain ⟨j, hj⟩ : ∃ j, impMapFind st.2 u'.code = some j := by
        cases hf : impMapFind st.2 u'.code with
        | none => exact absurd hcode ((impMapFind_eq_none_iff _ _).mp hf)
        | some j => exact ⟨j, rfl⟩
      simp only [mergeUnits, mergeUnit, hj, hu']
    | some params =>
      have hne : u ≠ u' := by
        intro he
        rw [he, hu'] at hbad
        exact Option.noConfusion hbad
      have hmem' : u ∈ rest := (List.mem_cons.mp hmem).resolve_left hne
      obtain ⟨st2, hst2⟩ : ∃ st2, mergeUnit st u' = .ok st2 := by
        unfold mergeUnit
        rw [hu']
        cases impMapFind st.2 u'.code with
        | none => exact ⟨st, rfl⟩
        | some j => exact ⟨_, rfl⟩
      have hids := mergeUnit_ok_map_id st st2 u' hst2
      simp only [mergeUnits, hst2]
      exact ih st2 hmem' hbad (hids ▸ hcode) (fun w hw => honly w (List.mem_cons_of_mem u' hw))

/-- A request with site ID `"s1"` and the single banner impression
`impB` (ID `"b1"`). -/
def reqB : BidRequest := { site := site0, imp := [impB], device := none }

/-- A bidder whose only ad unit has code `"nomatch"` — matching no
impression of `reqB` — and an undecodable parameter blob. -/
def bidderBadBlobUnmatched : Bidder :=
  { bidderCode := "conversant",
    adUnits := [ { code := "nomatch", params := none } ],
    lookupBidID := fun _ => "" }

/-- C8 counterexample: a placement whose parameter blob is invalid but
whose code matches no impression does NOT abort the call — the unit is
skipped before its blob is decoded and the call completes (here: HTTP
204, so zero bids and no error). -/
theorem c8_counterexample :
    call reqB bidderBadBlobUnmatched (fun _ => .response 204 "" none) = .ok [] := rfl

/-- C8 amended: a placement whose code matches an impression of the
request and whose parameter blob fails to decode aborts the whole call
with a decode error, for every possible transport outcome (no request
is sent, zero bids are produced).  The hypothesis that it is the only
bad blob pins down which decode error is reported. -/
theorem c8_amended_bad_blob_aborts (req : BidRequest) (bidder : Bidder) (u : AdUnit)
    (hu : u ∈ bidder.adUnits) (hmatch : u.code ∈ req.imp.map Imp.id)
    (hbad : u.params = none)
    (honly : ∀ w ∈ bidder.adUnits, w.params = none → w = u) :
    ∀ transmit : BidRequest → HttpOutcome,
      call req bidder transmit = .error (CallError.decodeParams u.code) := by
  intro transmit
  unfold call makeRequest
  rw [mergeUnits_decode_error u bidder.adUnits (req.site, req.imp) hu hbad hmatch honly]

/-- A bidder whose only ad unit has code `"b1"` — matching `impB` —
and an undecodable parameter blob. -/
def bidderBadBlobMatched : Bidder :=
  { bidderCode := "conversant",
    adUnits := [ { code := "b1", params := none } ],
    lookupBidID := fun _ => "" }

/-- C8 witness: the matched bad blob aborts the call with the decode
error for code `"b1"` even though the transport would have answered
204. -/
theorem c8_amended_bad_blob_aborts_witness :
    call reqB bidderBadBlobMatched (fun _ => .response 204 "" none) =
      .error (CallError.decodeParams "b1") :=
  c8_amended_bad_blob_aborts reqB bidderBadBlobMatched { code := "b1", params := none }
    (by decide) (by decide) rfl (by decide) (fun _ => .response 204 "" none)

/-! ## C2: a positive-price bid with an unknown impression fails the call -/

theorem reconcileBids_append (imps : List Imp) (bidder : Bidder) (l1 l2 : List Bid) :
    ∀ acc, reconcileBids imps bidder acc (l1 ++ l2) =
      match reconcileBids imps bidder acc l1 with
      | .ok acc2 => reconcileBids imps bidder acc2 l2
      | .error e => .error e := by
  induction l1 with
  | nil => intro acc; rfl
  | cons b l1 ih =>
    intro acc
    show reconcileBids imps bidder acc (b :: (l1 ++ l2)) = _
    simp only [reconcileBids]
    by_cases hp : b.price ≤ 0
    · rw [if_pos hp, if_pos hp]
      exact ih acc
    · rw [if_neg hp, if_neg hp]
      cases hf : impMapFind imps b.impID with
      | none => rfl
      | some imp =>
        dsimp only
        by_cases hb0 : bidder.lookupBidID b.impID = ""
        · rw [if_pos hb0, if_pos hb0]
        · rw [if_neg hb0, if_neg hb0]
          exact ih _

theorem reconcileSeats_eq_flat (imps : List Imp) (bidder : Bidder) (seats : List SeatBid) :
    ∀ acc, reconcileSeats imps bidder acc seats =
      reconcileBids imps bidder acc (seats.flatMap SeatBid.bid) := by
  induction seats with
  | nil => intro acc; rfl
  | cons s rest ih =>
    intro acc
    have hfm : (s :: rest).flatMap SeatBid.bid = s.bid ++ rest.flatMap SeatBid.bid := rfl
    rw [hfm, reconcileBids_append imps bidder s.bid (rest.flatMap SeatBid.bid) acc]
    simp only [reconcileSeats]
    cases h : reconcileBids imps bidder acc s.bid with
    | error e => rfl
    | ok acc2 => exact ih acc2

theorem reconcileBids_unknown_imp (imps : List Imp) (bidder : Bidder) (l : List Bid) :
    ∀ acc : List PBSBid,
      (∃ b ∈ l, 0 < b.price ∧ impMapFind imps b.impID = none) →
      (∀ b ∈ l, bidder.lookupBidID b.impID ≠ "") →
      ∃ b, b ∈ l ∧ impMapFind imps b.impID = none ∧
        reconcileBids imps bidder acc l = .error (.unknownImpression b.impID) := by
  induction l with
  | nil =>
    intro acc h _
    rcases h with ⟨b, hb, -⟩
    exact absurd hb (List.not_mem_nil b)
  | cons b rest ih =>
    intro acc hex hres
    by_cases hp : b.price ≤ 0
    · have hex' : ∃ c ∈ rest, 0 < c.price ∧ impMapFind imps c.impID = none := by
        rcases hex with ⟨c, hc, hcp, hcf⟩
        rcases List.mem_cons.mp hc with heq | hc'
        · subst heq
          exact absurd hp (not_le.mpr hcp)
        · exact ⟨c, hc', hcp, hcf⟩
      obtain ⟨c, hc, hcf, hrec⟩ :=
        ih acc hex' (fun c hc => hres c (List.mem_cons_of_mem b hc))
      refine ⟨c, List.mem_cons_of_mem b hc, hcf, ?_⟩
      simp only [reconcileBids]
      rw [if_pos hp]
      exact hrec
    · cases hf : impMapFind imps b.impID with
      | none =>
        refine ⟨b, List.mem_cons_self b rest, hf, ?_⟩
        simp only [reconcileBids]
        rw [if_neg hp, hf]
      | some imp =>
        have hb0 : bidder.lookupBidID b.impID ≠ "" := hres b (List.mem_cons_self b rest)
        have hex' : ∃ c ∈ rest, 0 < c.price ∧ impMapFind imps c.impID = none := by
          rcases hex with ⟨c, hc, hcp, hcf⟩
          rcases List.mem_cons.mp hc with heq | hc'
          · subst heq
            rw [hf] at hcf
            exact Option.noConfusion hcf
          · exact ⟨c, hc', hcp, hcf⟩
        obtain ⟨c, hc, hcf, hrec⟩ :=
          ih _ hex' (fun c hc => hres c (List.mem_cons_of_mem b hc))
        refine ⟨c, List.mem_cons_of_mem b hc, hcf, ?_⟩
        simp only [reconcileBids]
        rw [if_neg hp, hf]
        show (if bidder.lookupBidID b.impID = ""
            then Except.error (CallError.unknownAdUnitCode b.impID)
            else reconcileBids imps bidder
              (acc ++ [mkPBSBid bidder.bidderCode (bidder.lookupBidID b.impID) imp b])
              rest) = _
        rw [if_neg hb0]
        exact hrec

/-- C2: if any positive-price bid of a decoded 200 response carries an
impression ID absent from the impression map, the whole call fails
with the unknown-impression error and yields zero bid records, even
when every other bid is valid.  (`hres` says bid-ID resolution would
succeed for every bid; `hall` says the absent impression ID is
`badID`, pinning down the reported error.) -/
theorem c2_unknown_impression_fails (imps : List Imp) (bidder : Bidder) (body : String)
    (resp : BidResponse) (badID : String)
    (hex : ∃ b ∈ allBids resp, 0 < b.price ∧ impMapFind imps b.impID = none)
    (hres : ∀ b ∈ allBids resp, bidder.lookupBidID b.impID ≠ "")
    (hall : ∀ b ∈ allBids resp, impMapFind imps b.impID = none → b.impID = badID) :
    handleResponse imps bidder (.response 200 body (some resp)) =
      .error (.unknownImpression badID) := by
  obtain ⟨b, hb, hbf, hrec⟩ := reconcileBids_unknown_imp imps bidder (allBids resp) [] hex hres
  have hmain : reconcile imps bidder resp = .error (.unknownImpression b.impID) := by
    unfold reconcile
    rw [reconcileSeats_eq_flat]
    exact hrec
  rw [hall b hb hbf] at hmain
  show (if (200 : Nat) = 204 then Except.ok [] else if (200 : Nat) ≠ 200
      then Except.error (CallError.httpStatus 200 body)
      else reconcile imps bidder resp) = _
  rw [if_neg (by decide), if_neg (by decide)]
  exact hmain

/-- A known banner impression with ID `"ok1"`. -/
def impOK : Imp :=
  { id := "ok1", banner := some { w := 1, h := 1, pos := none }, video := none,
    displayManager := "", bidFloor := 0, tagID := "", secure := none }

/-- A bidder that resolves every placement code. -/
def bidderResolve : Bidder :=
  { bidderCode := "cnv", adUnits := [], lookupBidID := fun _ => "bidok" }

/-- One seat with a perfectly valid bid on `"ok1"` and a
positive-price bid on the unknown impression `"ghost"`. -/
def respGhost : BidResponse :=
  { seatBid := [ { bid := [
      { impID := "ok1", price := 1, adm := "a", nurl := "n", crID := "c", w := 1, h := 1 },
      { impID := "ghost", price := 1, adm := "", nurl := "", crID := "", w := 0, h := 0 } ] } ] }

/-- C2 witness: the response containing one valid bid and one
positive-price bid on `"ghost"` fails the whole call with the
unknown-impression error for `"ghost"` and produces no bid records. -/
theorem c2_unknown_impression_fails_witness :
    handleResponse [impOK] bidderResolve (.response 200 "" (some respGhost)) =
      .error (.unknownImpression "ghost") :=
  c2_unknown_impression_fails [impOK] bidderResolve "" respGhost "ghost"
    (by decide) (by decide) (by decide)

end Conversant
